import Mathlib

/-!
Verification of the operation-generation core (opgen) registration for the
ForeignKey element type, and of the sandboxed blob file service, of the
cockroach repository.

The source file `pkg/sql/schemachanger/scplan/opgen/opgen_out_foreign_key.go`
registers the ForeignKey element type's add/drop transition-rule sequences.
The shared builder/registry machinery (`register`, `to`, `minPhase`,
`revertible`, `emit`, `notImplemented`, `opRegistry`) lives elsewhere in
the repository; it is modelled here from the spec.  The blob service is
specified through its tests in `pkg/blobs/service_test.go`; its
implementation is likewise modelled from the spec.
-/

namespace Opgen

/-- Modelled from the spec: the closed status enumeration for schema
elements (scpb.Status); the statuses named by the spec are ABSENT,
DELETE_ONLY, WRITE_ONLY and PUBLIC. -/
inductive Status where
  | ABSENT
  | DELETE_ONLY
  | WRITE_ONLY
  | PUBLIC
  deriving DecidableEq, Repr

/-- Modelled from the spec: the transaction phases (scop.Phase), ordered
statement phase, then pre-commit, then post-commit. -/
inductive Phase where
  | StatementPhase
  | PreCommitPhase
  | PostCommitPhase
  deriving DecidableEq, Repr

/-- Numeric index of a phase, giving the phase order used for the
non-decreasing minPhase invariant. -/
def phaseIdx : Phase → Nat
  | Phase.StatementPhase => 0
  | Phase.PreCommitPhase => 1
  | Phase.PostCommitPhase => 2

/-- Modelled from the spec: the two transition directions. -/
inductive Direction where
  | add
  | drop
  deriving DecidableEq, Repr

/-- Modelled from the spec: the canonical terminal status for each
direction, PUBLIC for add and ABSENT for drop. -/
def targetStatusFor : Direction → Status
  | Direction.add => Status.PUBLIC
  | Direction.drop => Status.ABSENT

/-- Modelled from the spec: the ForeignKey schema element (scpb.ForeignKey),
restricted to the fields the registered emission functions read: the owning
table id OriginID and the constraint Name. -/
structure ForeignKey where
  OriginID : Nat
  Name : String
  deriving DecidableEq, Repr

/-- Modelled from the spec: the operations (scop.Op) producible by the
ForeignKey sequences: the DropForeignKeyRef operation with its TableID,
Name and Outbound fields, and the distinguished not-implemented
placeholder value. -/
inductive Op where
  | DropForeignKeyRef (TableID : Nat) (Name : String) (Outbound : Bool)
  | notImplementedOp
  deriving DecidableEq, Repr

/-- Modelled from the spec: `notImplemented(element)` is a placeholder
emission result signalling that the edge is declared but not backed by
real logic. -/
def notImplemented (_this : ForeignKey) : Op :=
  Op.notImplementedOp

/-- Modelled from the spec: one transition edge: destination status,
(the source names the destination field `to`; `dst` here),
minimum phase (defaulting to the earliest, most permissive phase),
revertibility flag (defaulting to true) and the emission function. -/
structure Edge where
  dst : Status
  minPhase : Phase
  revertible : Bool
  emitFn : ForeignKey → Op

/-- Modelled from the spec: the `to(status, modifiers...)` builder (named
toStatus here since `to` is reserved in Lean): an edge
targeting `status` starts from the defaults (earliest phase, revertible,
placeholder emission) and the modifiers are record-field setters applied
in order. -/
def toStatus (s : Status) (mods : List (Edge → Edge)) : Edge :=
  mods.foldl (fun e m => m e)
    { dst := s
      minPhase := Phase.StatementPhase
      revertible := true
      emitFn := notImplemented }

/-- Modelled from the spec: the `minPhase(phase)` modifier fixing the
earliest phase in which the edge's operation may run. -/
def minPhase (p : Phase) : Edge → Edge :=
  fun e => { e with minPhase := p }

/-- Modelled from the spec: the `revertible(bool)` modifier marking the
edge's rollback safety. -/
def revertible (b : Bool) : Edge → Edge :=
  fun e => { e with revertible := b }

/-- Modelled from the spec: the `emit(fn)` modifier supplying the
operation-producing function. -/
def emit (f : ForeignKey → Op) : Edge → Edge :=
  fun e => { e with emitFn := f }

/-- The ForeignKey add sequence registered in opgen_out_foreign_key.go:
a single edge to PUBLIC whose emission is the notImplemented placeholder. -/
def fkAddEdge : Edge :=
  toStatus Status.PUBLIC
    [ emit (fun this => notImplemented this) ]

/-- The ForeignKey add sequence as registered: the single add edge. -/
def fkAddSequence : List Edge :=
  [ fkAddEdge ]

/-- The ForeignKey drop sequence registered in opgen_out_foreign_key.go:
a single edge to ABSENT with minPhase PreCommitPhase, revertible false,
emitting a DropForeignKeyRef with TableID and Name read from the element
and Outbound true. -/
def fkDropEdge : Edge :=
  toStatus Status.ABSENT
    [ minPhase Phase.PreCommitPhase,
      revertible false,
      emit (fun this =>
        Op.DropForeignKeyRef this.OriginID this.Name true) ]

/-- The ForeignKey drop sequence as registered: the single drop edge. -/
def fkDropSequence : List Edge :=
  [ fkDropEdge ]

/-- Modelled from the spec: the element types present in the registry; the
source under consideration registers exactly the ForeignKey type. -/
inductive ElementType where
  | ForeignKeyType
  deriving DecidableEq, Repr

/-- Modelled from the spec: `lookup(elementType, direction)` on the
registry populated by opgen_out_foreign_key.go's init: it holds the
ForeignKey add and drop sequences. -/
def lookup : ElementType → Direction → Option (List Edge)
  | ElementType.ForeignKeyType, Direction.add => some fkAddSequence
  | ElementType.ForeignKeyType, Direction.drop => some fkDropSequence

/-- Modelled from the spec: the distinguished failure reported by emission
when the edge's function returns the not-implemented sentinel. -/
inductive EmitError where
  | notImplemented
  deriving DecidableEq, Repr

/-- Modelled from the spec: operation emission invokes the edge's emission
function on the element; a not-implemented sentinel is reported as the
distinguished not-implemented failure, any other result is returned as
the produced operation. -/
def emitOp (e : Edge) (el : ForeignKey) : Except EmitError Op :=
  match e.emitFn el with
  | Op.notImplementedOp => Except.error EmitError.notImplemented
  | op => Except.ok op

/-- Once an edge is non-revertible, every later edge in the sequence is
non-revertible. -/
def noRevertAfterNonRevertible : List Edge → Bool
  | [] => true
  | e :: rest =>
      if e.revertible then noRevertAfterNonRevertible rest
      else rest.all (fun x => !x.revertible)

/-- The minPhase values along the sequence are non-decreasing. -/
def phasesNonDecreasing : List Edge → Bool
  | [] => true
  | [_] => true
  | e1 :: e2 :: rest =>
      decide (phaseIdx e1.minPhase ≤ phaseIdx e2.minPhase) &&
        phasesNonDecreasing (e2 :: rest)

end Opgen

namespace Blobs

/-- A filename or pattern, modelled as its list of slash-separated
segments (e.g. "file/../../content.txt" is the list
["file", "..", "..", "content.txt"]). -/
abbrev Segs := List String

/-- Modelled from the spec: resolving a request path against the service's
root directory, as filepath.Join followed by lexical cleaning does: "" and
"." segments vanish, ".." pops the previous segment, and a ".." that would
pop past the root means the resolved path lies outside of the root, in
which case resolution reports none.  The accumulator holds the resolved
segments in reverse. -/
def resolveAux : List String → List String → Option Segs
  | acc, [] => some acc.reverse
  | acc, s :: rest =>
      if s = "" ∨ s = "." then resolveAux acc rest
      else if s = ".." then
        match acc with
        | [] => none
        | _ :: acc2 => resolveAux acc2 rest
      else resolveAux (s :: acc) rest

/-- Resolution of a request path relative to the root. -/
def resolve (p : Segs) : Option Segs :=
  resolveAux [] p

/-- Modelled from the spec: the state of the sandboxed directory, a finite
list of files, each a resolved path inside the root together with its
byte content. -/
abbrev FS := List (Segs × List Nat)

/-- The content of the file at path p, if one exists. -/
def findFile : FS → Segs → Option (List Nat)
  | [], _ => none
  | (q, c) :: rest, p => if q = p then some c else findFile rest p

/-- The filesystem with every file at path p removed. -/
def removeFile (fs : FS) (p : Segs) : FS :=
  fs.filter (fun e => e.1 ≠ p)

/-- The filesystem with the file at path p set to content c. -/
def setFile (fs : FS) (p : Segs) (c : List Nat) : FS :=
  (p, c) :: removeFile fs p

/-- Whether a is a strict prefix of b (so a names a directory containing
the entry at b). -/
def strictPrefixOf : Segs → Segs → Bool
  | [], [] => false
  | [], _ :: _ => true
  | _ :: _, [] => false
  | a :: as, b :: bs => a = b && strictPrefixOf as bs

/-- Whether p names a directory of the filesystem: a strict prefix of some
stored file's path. -/
def isDir (fs : FS) (p : Segs) : Bool :=
  fs.any (fun e => strictPrefixOf p e.1)

/-- Modelled from the spec: the blob service's error conditions: the
"outside of external-io-dir is not allowed" rejection, the "no such file"
failure and the "expected a file" failure. -/
inductive BlobError where
  | outsideRoot
  | noSuchFile
  | expectedAFile
  deriving DecidableEq, Repr

/-- Wildcard match of one pattern segment against one path segment; the
character matching any run of characters. -/
def matchSeg : List Char → List Char → Bool
  | [], [] => true
  | [], _ :: _ => false
  | p :: ps, cs =>
      if p = '*' then
        matchSeg ps cs ||
          (match cs with
           | [] => false
           | _ :: cs2 => matchSeg (p :: ps) cs2)
      else
        match cs with
        | [] => false
        | c :: cs2 => p = c && matchSeg ps cs2
termination_by ps cs => ps.length + cs.length

/-- Glob match of a pattern path against a file path, segment by
segment. -/
def matchPath : Segs → Segs → Bool
  | [], [] => true
  | [], _ :: _ => false
  | _ :: _, [] => false
  | p :: ps, q :: qs => matchSeg p.data q.data && matchPath ps qs

/-- Modelled from the spec: GetBlob: resolve the filename against the
root, rejecting escapes; return the file's payload, or the "no such
file" failure. -/
def getBlob (fs : FS) (filename : Segs) : Except BlobError (List Nat) :=
  match resolve filename with
  | none => Except.error BlobError.outsideRoot
  | some p =>
      match findFile fs p with
      | some c => Except.ok c
      | none => Except.error BlobError.noSuchFile

/-- Modelled from the spec: PutBlob: resolve the filename against the
root, rejecting escapes; write the payload at the resolved path. -/
def putBlob (fs : FS) (filename : Segs) (payload : List Nat) :
    Except BlobError FS :=
  match resolve filename with
  | none => Except.error BlobError.outsideRoot
  | some p => Except.ok (setFile fs p payload)

/-- Modelled from the spec: List: resolve the glob pattern against the
root, rejecting escapes; return the stored paths matching the pattern. -/
def listBlobs (fs : FS) (pattern : Segs) : Except BlobError (List Segs) :=
  match resolve pattern with
  | none => Except.error BlobError.outsideRoot
  | some pat => Except.ok ((fs.filter (fun e => matchPath pat e.1)).map (fun e => e.1))

/-- Modelled from the spec: Stat: resolve the filename against the root,
rejecting escapes; report the file's size in bytes, the "expected a file"
failure on a directory, or the "no such file" failure. -/
def statBlob (fs : FS) (filename : Segs) : Except BlobError Nat :=
  match resolve filename with
  | none => Except.error BlobError.outsideRoot
  | some p =>
      match findFile fs p with
      | some c => Except.ok c.length
      | none =>
          if isDir fs p then Except.error BlobError.expectedAFile
          else Except.error BlobError.noSuchFile

/-- Modelled from the spec: Delete: resolve the filename against the root,
rejecting escapes; remove the named file, or report the "no such file"
failure when it does not exist. -/
def deleteBlob (fs : FS) (filename : Segs) : Except BlobError FS :=
  match resolve filename with
  | none => Except.error BlobError.outsideRoot
  | some p =>
      match findFile fs p with
      | some _ => Except.ok (removeFile fs p)
      | none => Except.error BlobError.noSuchFile

end Blobs

namespace Opgen

/-- C1: looking up the ForeignKey drop sequence yields exactly one edge,
with destination ABSENT, minPhase PreCommitPhase and revertible false, and
emitting that edge on any element with OriginID 7 and Name "fk1" produces
exactly the DropForeignKeyRef operation with TableID 7, Name "fk1" and
Outbound true, TableID and Name taken verbatim from the element's OriginID
and Name fields. -/
theorem fk_drop_lookup_emit (e : ForeignKey) (h1 : e.OriginID = 7)
    (h2 : e.Name = "fk1") :
    lookup ElementType.ForeignKeyType Direction.drop = some [fkDropEdge] ∧
    fkDropEdge.dst = Status.ABSENT ∧
    fkDropEdge.minPhase = Phase.PreCommitPhase ∧
    fkDropEdge.revertible = false ∧
    emitOp fkDropEdge e = Except.ok (Op.DropForeignKeyRef e.OriginID e.Name true) ∧
    emitOp fkDropEdge e = Except.ok (Op.DropForeignKeyRef 7 "fk1" true) := by
  refine ⟨rfl, rfl, rfl, rfl, ?_, ?_⟩
  · rfl
  · rw [← h1, ← h2]
    rfl

/-- Witness for C1 at the concrete element with OriginID 7 and
Name "fk1". -/
theorem fk_drop_lookup_emit_witness :
    lookup ElementType.ForeignKeyType Direction.drop = some [fkDropEdge] ∧
    fkDropEdge.dst = Status.ABSENT ∧
    fkDropEdge.minPhase = Phase.PreCommitPhase ∧
    fkDropEdge.revertible = false ∧
    emitOp fkDropEdge ⟨7, "fk1"⟩ =
      Except.ok (Op.DropForeignKeyRef (ForeignKey.mk 7 "fk1").OriginID
        (ForeignKey.mk 7 "fk1").Name true) ∧
    emitOp fkDropEdge ⟨7, "fk1"⟩ =
      Except.ok (Op.DropForeignKeyRef 7 "fk1" true) :=
  fk_drop_lookup_emit ⟨7, "fk1"⟩ rfl rfl

/-- C2: the registered ForeignKey add edge to PUBLIC carries the
notImplemented placeholder, so emission on it reports the distinguished
not-implemented condition for every element and never returns an ordinary
operation. -/
theorem fk_add_emit_not_implemented (e : ForeignKey) :
    lookup ElementType.ForeignKeyType Direction.add = some [fkAddEdge] ∧
    emitOp fkAddEdge e = Except.error EmitError.notImplemented ∧
    ∀ op : Op, emitOp fkAddEdge e ≠ Except.ok op := by
  refine ⟨rfl, rfl, ?_⟩
  intro op h
  exact Except.noConfusion h

/-- C3: for every registered element type and direction, the final edge's
destination status in the registered sequence equals that direction's
canonical terminal status (PUBLIC for add, ABSENT for drop). -/
theorem registered_terminal_status (t : ElementType) (d : Direction)
    (seq : List Edge) (h : lookup t d = some seq) :
    seq.getLast?.map Edge.dst = some (targetStatusFor d) := by
  cases t
  cases d <;> (injection h with h2; subst h2; rfl)

/-- Witness for C3 on the ForeignKey drop sequence. -/
theorem registered_terminal_status_witness :
    fkDropSequence.getLast?.map Edge.dst =
      some (targetStatusFor Direction.drop) :=
  registered_terminal_status ElementType.ForeignKeyType Direction.drop
    fkDropSequence rfl

/-- C4: for every registered sequence, once an edge is marked
non-revertible no later edge in the sequence is revertible. -/
theorem registered_revertibility_order (t : ElementType) (d : Direction)
    (seq : List Edge) (h : lookup t d = some seq) :
    noRevertAfterNonRevertible seq = true := by
  cases t
  cases d <;> (injection h with h2; subst h2; rfl)

/-- Witness for C4 on the ForeignKey drop sequence. -/
theorem registered_revertibility_order_witness :
    noRevertAfterNonRevertible fkDropSequence = true :=
  registered_revertibility_order ElementType.ForeignKeyType Direction.drop
    fkDropSequence rfl

/-- C5: for every registered sequence, the minPhase values of the edges
(an omitted minPhase meaning the earliest phase) are non-decreasing in
sequence order. -/
theorem registered_phases_non_decreasing (t : ElementType) (d : Direction)
    (seq : List Edge) (h : lookup t d = some seq) :
    phasesNonDecreasing seq = true := by
  cases t
  cases d <;> (injection h with h2; subst h2; rfl)

/-- Witness for C5 on the ForeignKey drop sequence. -/
theorem registered_phases_non_decreasing_witness :
    phasesNonDecreasing fkDropSequence = true :=
  registered_phases_non_decreasing ElementType.ForeignKeyType Direction.drop
    fkDropSequence rfl

/-- C6: emission is deterministic and reads only the element's fields: for
every edge of a registered ForeignKey sequence, two elements agreeing on
OriginID and Name yield equal emission results (equal operations or the
same not-implemented outcome); in this pure model emission touches no
state. -/
theorem emit_deterministic (t : ElementType) (d : Direction)
    (seq : List Edge) (edge : Edge) (h : lookup t d = some seq)
    (hm : edge ∈ seq) (e1 e2 : ForeignKey)
    (h1 : e1.OriginID = e2.OriginID) (h2 : e1.Name = e2.Name) :
    emitOp edge e1 = emitOp edge e2 := by
  cases t
  cases d
  · injection h with h3
    subst h3
    simp only [fkAddSequence, List.mem_singleton] at hm
    subst hm
    rfl
  · injection h with h3
    subst h3
    simp only [fkDropSequence, List.mem_singleton] at hm
    subst hm
    show Except.ok (Op.DropForeignKeyRef e1.OriginID e1.Name true) =
      Except.ok (Op.DropForeignKeyRef e2.OriginID e2.Name true)
    rw [h1, h2]

/-- Witness for C6 on the drop edge at two equal concrete elements. -/
theorem emit_deterministic_witness :
    emitOp fkDropEdge ⟨7, "fk1"⟩ = emitOp fkDropEdge ⟨7, "fk1"⟩ :=
  emit_deterministic ElementType.ForeignKeyType Direction.drop
    fkDropSequence fkDropEdge rfl (List.mem_singleton.mpr rfl)
    ⟨7, "fk1"⟩ ⟨7, "fk1"⟩ rfl rfl

end Opgen

namespace Blobs

/-- After removing the file at p, no file at p remains. -/
theorem findFile_removeFile (fs : FS) (p : Segs) :
    findFile (removeFile fs p) p = none := by
  induction fs with
  | nil => rfl
  | cons e rest ih =>
      obtain ⟨q, c⟩ := e
      simp only [removeFile, List.filter_cons, ne_eq, decide_not] at ih ⊢
      by_cases h : q = p
      · simpa [h] using ih
      · simp [h, findFile, ih]

/-- C7: on any request whose filename or pattern resolves outside the
service's root, every blob-service operation (get, put, list, stat,
delete) fails with the outside-of-external-io-dir error, touching no file:
in particular neither put nor delete produces a new filesystem state. -/
theorem outside_root_rejected (fs : FS) (name : Segs) (payload : List Nat)
    (h : resolve name = none) :
    getBlob fs name = Except.error BlobError.outsideRoot ∧
    putBlob fs name payload = Except.error BlobError.outsideRoot ∧
    listBlobs fs name = Except.error BlobError.outsideRoot ∧
    statBlob fs name = Except.error BlobError.outsideRoot ∧
    deleteBlob fs name = Except.error BlobError.outsideRoot := by
  simp [getBlob, putBlob, listBlobs, statBlob, deleteBlob, h]

/-- Witness for C7 on the escaping request path
"file/../../content.txt" from the tests. -/
theorem outside_root_rejected_witness :
    getBlob [] ["file", "..", "..", "content.txt"] =
      Except.error BlobError.outsideRoot ∧
    putBlob [] ["file", "..", "..", "content.txt"] [] =
      Except.error BlobError.outsideRoot ∧
    listBlobs [] ["file", "..", "..", "content.txt"] =
      Except.error BlobError.outsideRoot ∧
    statBlob [] ["file", "..", "..", "content.txt"] =
      Except.error BlobError.outsideRoot ∧
    deleteBlob [] ["file", "..", "..", "content.txt"] =
      Except.error BlobError.outsideRoot :=
  outside_root_rejected [] ["file", "..", "..", "content.txt"] [] rfl

/-- C8: on an in-root path naming no stored file, GetBlob, Delete and
Stat fail with the no-such-file error (Stat provided the path is not a
directory), and Stat on a path naming a directory rather than a file
fails with the expected-a-file error. -/
theorem missing_file_errors (fs : FS) (name : Segs) (p : Segs)
    (h1 : resolve name = some p) (h2 : findFile fs p = none) :
    getBlob fs name = Except.error BlobError.noSuchFile ∧
    deleteBlob fs name = Except.error BlobError.noSuchFile ∧
    (isDir fs p = false →
      statBlob fs name = Except.error BlobError.noSuchFile) ∧
    (isDir fs p = true →
      statBlob fs name = Except.error BlobError.expectedAFile) := by
  refine ⟨?_, ?_, ?_, ?_⟩
  · simp [getBlob, h1, h2]
  · simp [deleteBlob, h1, h2]
  · intro h3
    simp [statBlob, h1, h2, h3]
  · intro h3
    simp [statBlob, h1, h2, h3]

/-- Witness for C8: the missing path "file/does/not/exist" and the
directory path "path/to/file", against the filesystem holding the one
file "path/to/file/content.txt" from the tests. -/
theorem missing_file_errors_witness :
    (getBlob [(["path", "to", "file", "content.txt"], [1, 2, 3])]
        ["file", "does", "not", "exist"] =
        Except.error BlobError.noSuchFile ∧
      deleteBlob [(["path", "to", "file", "content.txt"], [1, 2, 3])]
        ["file", "does", "not", "exist"] =
        Except.error BlobError.noSuchFile ∧
      (isDir [(["path", "to", "file", "content.txt"], [1, 2, 3])]
          ["file", "does", "not", "exist"] = false →
        statBlob [(["path", "to", "file", "content.txt"], [1, 2, 3])]
          ["file", "does", "not", "exist"] =
          Except.error BlobError.noSuchFile) ∧
      (isDir [(["path", "to", "file", "content.txt"], [1, 2, 3])]
          ["file", "does", "not", "exist"] = true →
        statBlob [(["path", "to", "file", "content.txt"], [1, 2, 3])]
          ["file", "does", "not", "exist"] =
          Except.error BlobError.expectedAFile)) ∧
    (getBlob [(["path", "to", "file", "content.txt"], [1, 2, 3])]
        ["path", "to", "file"] =
        Except.error BlobError.noSuchFile ∧
      deleteBlob [(["path", "to", "file", "content.txt"], [1, 2, 3])]
        ["path", "to", "file"] =
        Except.error BlobError.noSuchFile ∧
      (isDir [(["path", "to", "file", "content.txt"], [1, 2, 3])]
          ["path", "to", "file"] = false →
        statBlob [(["path", "to", "file", "content.txt"], [1, 2, 3])]
          ["path", "to", "file"] =
          Except.error BlobError.noSuchFile) ∧
      (isDir [(["path", "to", "file", "content.txt"], [1, 2, 3])]
          ["path", "to", "file"] = true →
        statBlob [(["path", "to", "file", "content.txt"], [1, 2, 3])]
          ["path", "to", "file"] =
          Except.error BlobError.expectedAFile)) :=
  ⟨missing_file_errors _ ["file", "does", "not", "exist"] _ rfl rfl,
    missing_file_errors _ ["path", "to", "file"] _ rfl rfl⟩

/-- C9: put/get round-trip: after a successful PutBlob on an in-root
filename, GetBlob on the same filename returns exactly the stored
payload and Stat reports a filesize equal to the payload's length. -/
theorem put_get_stat_roundtrip (fs : FS) (name : Segs) (p : Segs)
    (payload : List Nat) (h : resolve name = some p) :
    ∃ fs2 : FS,
      putBlob fs name payload = Except.ok fs2 ∧
      getBlob fs2 name = Except.ok payload ∧
      statBlob fs2 name = Except.ok payload.length := by
  refine ⟨setFile fs p payload, ?_, ?_, ?_⟩
  · simp [putBlob, h]
  · simp [getBlob, h, setFile, findFile]
  · simp [statBlob, h, setFile, findFile]

/-- Witness for C9 at the test's filename "path/to/file/content.txt" and
a two-byte payload, starting from the empty directory. -/
theorem put_get_stat_roundtrip_witness :
    ∃ fs2 : FS,
      putBlob [] ["path", "to", "file", "content.txt"] [1, 2] =
        Except.ok fs2 ∧
      getBlob fs2 ["path", "to", "file", "content.txt"] =
        Except.ok [1, 2] ∧
      statBlob fs2 ["path", "to", "file", "content.txt"] =
        Except.ok ([1, 2] : List Nat).length :=
  put_get_stat_roundtrip [] ["path", "to", "file", "content.txt"]
    ["path", "to", "file", "content.txt"] [1, 2] rfl

/-- C10: delete postcondition: a successful Delete of an existing in-root
file removes it, so a later GetBlob or Stat of the same filename fails
with the no-such-file error (Stat provided the path is not left naming a
directory). -/
theorem delete_removes_file (fs : FS) (name : Segs) (p : Segs)
    (c : List Nat) (h1 : resolve name = some p)
    (h2 : findFile fs p = some c)
    (h3 : isDir (removeFile fs p) p = false) :
    ∃ fs2 : FS,
      deleteBlob fs name = Except.ok fs2 ∧
      getBlob fs2 name = Except.error BlobError.noSuchFile ∧
      statBlob fs2 name = Except.error BlobError.noSuchFile := by
  refine ⟨removeFile fs p, ?_, ?_, ?_⟩
  · simp [deleteBlob, h1, h2]
  · simp [getBlob, h1, findFile_removeFile]
  · simp [statBlob, h1, findFile_removeFile, h3]

/-- Witness for C10: deleting the test's stored file
"path/to/file/content.txt". -/
theorem delete_removes_file_witness :
    ∃ fs2 : FS,
      deleteBlob [(["path", "to", "file", "content.txt"], [1, 2])]
        ["path", "to", "file", "content.txt"] = Except.ok fs2 ∧
      getBlob fs2 ["path", "to", "file", "content.txt"] =
        Except.error BlobError.noSuchFile ∧
      statBlob fs2 ["path", "to", "file", "content.txt"] =
        Except.error BlobError.noSuchFile :=
  delete_removes_file [(["path", "to", "file", "content.txt"], [1, 2])]
    ["path", "to", "file", "content.txt"]
    ["path", "to", "file", "content.txt"] [1, 2] rfl rfl rfl

end Blobs
